import Mathlib

/-!
# Verification of the `jupiter` weather-aggregation core

Shallow embedding of `src/provider/common.rs` and
`src/provider/combo_enhanced.rs`.

Modelling conventions:
* Rust `f64` is modelled as `ℚ` (the combination rules are exact
  field arithmetic; no claim under check concerns rounding).
* Rust `HashMap` is modelled as an association list with
  overwrite-on-insert (`insertAssoc`) and first-binding lookup
  (`List.lookup`); where the code iterates a `HashMap` and then sorts the
  result by a key that is unique per entry, the iteration order is
  immaterial and buckets are enumerated in first-encounter order.
* `SystemTime` / `Instant` are modelled as `Nat` seconds passed in
  explicitly (`now`); `u64` subtraction `now - t` is `Nat` truncated
  subtraction, matching the code on the `t ≤ now` inputs the claims use.
* `serde_json::Value` round-tripping is modelled by the `CacheValue` sum
  type: serialising a `Weather` and deserialising it as `Weather`
  succeeds and is the identity, deserialising it at a different type
  fails (treated as a cache miss by the callers, as in the code).
* `async` methods are modelled as pure functions from the provider's
  (pre-determined) responses; the sequential fan-out loops become
  structural recursion that also counts how many adapter calls were made,
  so that short-circuiting is observable.
-/

namespace Jupiter

/-- `Location` from `common.rs`. -/
structure Location where
  latitude : ℚ
  longitude : ℚ
  name : String
  country : Option String
  region : Option String
  postal_code : Option String
deriving DecidableEq, Repr

/-- `Weather` from `common.rs`: temperature mandatory, the other numeric
fields optional. -/
structure Weather where
  temperature : ℚ
  feels_like : Option ℚ
  humidity : Option ℚ
  pressure : Option ℚ
  wind_speed : Option ℚ
  wind_direction : Option ℚ
  description : String
  icon : Option String
  precipitation : Option ℚ
  visibility : Option ℚ
  uv_index : Option ℚ
  provider : String
  location : Location
  timestamp : Int
deriving DecidableEq, Repr

/-- `WeatherError` from `common.rs`. -/
inductive WeatherError where
  | NetworkError (msg : String)
  | ParseError (msg : String)
  | NotFound (msg : String)
  | RateLimitExceeded
  | InvalidApiKey
  | ConfigurationError (msg : String)
  | DatabaseError (msg : String)
deriving DecidableEq, Repr

/-- Discriminates the `NotFound` error kind. -/
def WeatherError.isNotFound : WeatherError → Bool
  | .NotFound _ => true
  | _ => false

/-- `AlertSeverity` from `common.rs`; the Rust `derive(Ord)` orders the
variants in declaration order: `Minor < Moderate < Severe < Extreme`. -/
inductive AlertSeverity where
  | Minor
  | Moderate
  | Severe
  | Extreme
deriving DecidableEq, Repr

/-- Rank of a severity under the derived Rust `Ord` (declaration order). -/
def AlertSeverity.rank : AlertSeverity → Nat
  | .Minor => 0
  | .Moderate => 1
  | .Severe => 2
  | .Extreme => 3

/-- `Alert` from `common.rs`. -/
structure Alert where
  title : String
  description : String
  severity : AlertSeverity
  start : String
  ending : Option String
  regions : List String
deriving DecidableEq, Repr

/-- `DailyForecast` from `common.rs`. -/
structure DailyForecast where
  date : String
  temperature_min : ℚ
  temperature_max : ℚ
  humidity : Option ℚ
  precipitation_probability : Option ℚ
  precipitation_amount : Option ℚ
  wind_speed : Option ℚ
  wind_direction : Option ℚ
  description : String
  icon : Option String
  sunrise : Option String
  sunset : Option String
deriving DecidableEq, Repr

/-- `HourlyForecast` from `common.rs`. -/
structure HourlyForecast where
  datetime : String
  temperature : ℚ
  feels_like : Option ℚ
  humidity : Option ℚ
  precipitation_probability : Option ℚ
  precipitation_amount : Option ℚ
  wind_speed : Option ℚ
  wind_direction : Option ℚ
  description : String
  icon : Option String
deriving DecidableEq, Repr

/-- `Forecast` from `common.rs`. -/
structure Forecast where
  location : Location
  provider : String
  daily : List DailyForecast
  hourly : Option (List HourlyForecast)
deriving DecidableEq, Repr

/-- `HistoricalData` from `common.rs`. -/
structure HistoricalData where
  location : Location
  provider : String
  date : String
  temperature_min : ℚ
  temperature_max : ℚ
  temperature_avg : ℚ
  humidity_avg : Option ℚ
  precipitation_total : Option ℚ
  wind_speed_avg : Option ℚ
deriving DecidableEq, Repr

/-- `WeatherFeature` from `common.rs`. -/
inductive WeatherFeature where
  | CurrentWeather
  | Forecast
  | Alerts
  | HistoricalData
  | HourlyForecast
  | UvIndex
  | AirQuality
deriving DecidableEq, Repr

/-- The fallback `Location` used by the combiners when no provider
contributed one (`combo_enhanced.rs`, the `unwrap_or_else` closures). -/
def unknownLocation : Location :=
  { latitude := 0
    longitude := 0
    name := "Unknown"
    country := none
    region := none
    postal_code := none }

/-- Association-list insert with overwrite, modelling `HashMap::insert`. -/
def insertAssoc {β : Type} (k : String) (v : β) : List (String × β) → List (String × β)
  | [] => [(k, v)]
  | (k', v') :: t => if k' = k then (k, v) :: t else (k', v') :: insertAssoc k v t

/-- Association-list lookup, modelling `HashMap::get`. -/
def lookupAssoc {β : Type} (k : String) : List (String × β) → Option β
  | [] => none
  | (k', v) :: t => if k' = k then some v else lookupAssoc k t

/-- `self.weights.get(name).unwrap_or(&1.0)` from `combo_enhanced.rs`:
the per-provider weight, defaulting to `1.0` when the name is absent. -/
def weightOf (weights : List (String × ℚ)) (name : String) : ℚ :=
  (lookupAssoc name weights).getD 1

/-- One optional-field accumulation step of the `average_weather` /
`combine_forecasts` loops: on `Some val` add `val * weight` to the sum and
`weight` to the count, on `None` leave the accumulator unchanged. -/
def accOpt (weight : ℚ) (v : Option ℚ) (sc : ℚ × ℚ) : ℚ × ℚ :=
  match v with
  | some val => (sc.1 + val * weight, sc.2 + weight)
  | none => sc

/-- Final reading of an optional-field accumulator:
`if count > 0.0 { Some(sum / count) } else { None }`. -/
def avgOpt (sc : ℚ × ℚ) : Option ℚ :=
  if 0 < sc.2 then some (sc.1 / sc.2) else none

/-- The mutable state of the `average_weather` loop in
`combo_enhanced.rs` (sums, per-optional-field `(sum, count)` pairs,
collected descriptions, first location). -/
structure WAcc where
  avg_temp : ℚ
  feels_like : ℚ × ℚ
  humidity : ℚ × ℚ
  pressure : ℚ × ℚ
  wind_speed : ℚ × ℚ
  wind_direction : ℚ × ℚ
  precipitation : ℚ × ℚ
  visibility : ℚ × ℚ
  uv_index : ℚ × ℚ
  descriptions : List String
  location : Option Location

/-- Initial accumulator of the `average_weather` loop. -/
def WAcc.init : WAcc :=
  { avg_temp := 0
    feels_like := (0, 0)
    humidity := (0, 0)
    pressure := (0, 0)
    wind_speed := (0, 0)
    wind_direction := (0, 0)
    precipitation := (0, 0)
    visibility := (0, 0)
    uv_index := (0, 0)
    descriptions := []
    location := none }

/-- One iteration of the `for (name, weather) in &weathers` loop of
`ComboProvider::average_weather`. -/
def waStep (weights : List (String × ℚ)) (acc : WAcc) (p : String × Weather) : WAcc :=
  let weight := weightOf weights p.1
  let weather := p.2
  { avg_temp := acc.avg_temp + weather.temperature * weight
    feels_like := accOpt weight weather.feels_like acc.feels_like
    humidity := accOpt weight weather.humidity acc.humidity
    pressure := accOpt weight weather.pressure acc.pressure
    wind_speed := accOpt weight weather.wind_speed acc.wind_speed
    wind_direction := accOpt weight weather.wind_direction acc.wind_direction
    precipitation := accOpt weight weather.precipitation acc.precipitation
    visibility := accOpt weight weather.visibility acc.visibility
    uv_index := accOpt weight weather.uv_index acc.uv_index
    descriptions := acc.descriptions ++ [p.1 ++ ": " ++ weather.description]
    location := match acc.location with
      | some l => some l
      | none => some weather.location }

/-- `ComboProvider::average_weather` from `combo_enhanced.rs`.
`weights` is the provider's weight map, `now` the wall-clock second used
for the result's timestamp. -/
def average_weather (weights : List (String × ℚ)) (now : Int)
    (weathers : List (String × Weather)) : Except WeatherError Weather :=
  if weathers.isEmpty then
    .error (.NotFound "No weather data available from any provider")
  else
    let total_weight : ℚ := (weathers.map (fun p => weightOf weights p.1)).sum
    let acc := weathers.foldl (waStep weights) WAcc.init
    .ok
      { temperature := acc.avg_temp / total_weight
        feels_like := avgOpt acc.feels_like
        humidity := avgOpt acc.humidity
        pressure := avgOpt acc.pressure
        wind_speed := avgOpt acc.wind_speed
        wind_direction := avgOpt acc.wind_direction
        description := "Combined: " ++ String.intercalate " | " acc.descriptions
        icon := none
        precipitation := avgOpt acc.precipitation
        visibility := avgOpt acc.visibility
        uv_index := avgOpt acc.uv_index
        provider := "Combo"
        location := acc.location.getD unknownLocation
        timestamp := now }

/-- The mutable state of the per-date bucket loop in
`ComboProvider::combine_forecasts` (weighted sums for the mandatory
min/max temperatures, `(sum, count)` pairs for the optional fields, and
the first non-null sunrise/sunset seen so far). -/
structure DAcc where
  temperature_min : ℚ
  temperature_max : ℚ
  humidity : ℚ × ℚ
  precipitation_probability : ℚ × ℚ
  precipitation_amount : ℚ × ℚ
  wind_speed : ℚ × ℚ
  wind_direction : ℚ × ℚ
  sunrise : Option String
  sunset : Option String

/-- Initial accumulator of the daily-bucket loop. -/
def DAcc.init : DAcc :=
  { temperature_min := 0
    temperature_max := 0
    humidity := (0, 0)
    precipitation_probability := (0, 0)
    precipitation_amount := (0, 0)
    wind_speed := (0, 0)
    wind_direction := (0, 0)
    sunrise := none
    sunset := none }

/-- One iteration of the `for (name, forecast) in &provider_forecasts`
loop of the daily bucket combination in `combine_forecasts`. -/
def daStep (weights : List (String × ℚ)) (acc : DAcc) (p : String × DailyForecast) : DAcc :=
  let weight := weightOf weights p.1
  let f := p.2
  { temperature_min := acc.temperature_min + f.temperature_min * weight
    temperature_max := acc.temperature_max + f.temperature_max * weight
    humidity := accOpt weight f.humidity acc.humidity
    precipitation_probability := accOpt weight f.precipitation_probability acc.precipitation_probability
    precipitation_amount := accOpt weight f.precipitation_amount acc.precipitation_amount
    wind_speed := accOpt weight f.wind_speed acc.wind_speed
    wind_direction := accOpt weight f.wind_direction acc.wind_direction
    sunrise := match acc.sunrise with
      | some s => some s
      | none => f.sunrise
    sunset := match acc.sunset with
      | some s => some s
      | none => f.sunset }

/-- Combination of one date bucket in `combine_forecasts` (the closure
mapped over `daily_map.into_iter()`). -/
def combineDailyBucket (weights : List (String × ℚ)) (date : String)
    (bucket : List (String × DailyForecast)) : DailyForecast :=
  let total_weight : ℚ := (bucket.map (fun p => weightOf weights p.1)).sum
  let acc := bucket.foldl (daStep weights) DAcc.init
  { date := date
    temperature_min := acc.temperature_min / total_weight
    temperature_max := acc.temperature_max / total_weight
    humidity := avgOpt acc.humidity
    precipitation_probability := avgOpt acc.precipitation_probability
    precipitation_amount := avgOpt acc.precipitation_amount
    wind_speed := avgOpt acc.wind_speed
    wind_direction := avgOpt acc.wind_direction
    description := "Combined forecast"
    icon := none
    sunrise := acc.sunrise
    sunset := acc.sunset }

/-- Combination of one datetime bucket of the hourly path in
`combine_forecasts`: only `temperature` is weighted-averaged, every other
field keeps the initialiser of the `avg` record. -/
def combineHourlyBucket (weights : List (String × ℚ)) (datetime : String)
    (bucket : List (String × HourlyForecast)) : HourlyForecast :=
  let total_weight : ℚ := (bucket.map (fun p => weightOf weights p.1)).sum
  let temp : ℚ := (bucket.map (fun p => p.2.temperature * weightOf weights p.1)).sum
  { datetime := datetime
    temperature := temp / total_weight
    feels_like := none
    humidity := none
    precipitation_probability := none
    precipitation_amount := none
    wind_speed := none
    wind_direction := none
    description := "Combined"
    icon := none }

/-- The `(provider_name, daily)` pairs pushed into `daily_map`, in
encounter order of the two nested loops of `combine_forecasts`. -/
def flattenDaily (fs : List (String × Forecast)) : List (String × DailyForecast) :=
  fs.flatMap (fun p => p.2.daily.map (fun d => (p.1, d)))

/-- The `(provider_name, hourly)` pairs pushed into `hourly_map`, in
encounter order of the loops of `combine_forecasts`. -/
def flattenHourly (fs : List (String × Forecast)) : List (String × HourlyForecast) :=
  fs.flatMap (fun p =>
    match p.2.hourly with
    | some hs => hs.map (fun h => (p.1, h))
    | none => [])

/-- Distinct keys of a list in first-encounter order. Models the key set
of a `HashMap` built by `entry(..).or_insert_with(..).push(..)`; the
`HashMap` iteration order itself is immaterial in `combine_forecasts`
because the combined entries are finally sorted by their (distinct)
keys. -/
def dedupFirst : List String → List String
  | [] => []
  | x :: xs => x :: (dedupFirst xs).filter (fun y => y ≠ x)

/-- The bucket `daily_map[date]`: all pushed pairs with that date, in
push order. -/
def dailyBucket (fs : List (String × Forecast)) (date : String) :
    List (String × DailyForecast) :=
  (flattenDaily fs).filter (fun p => p.2.date = date)

/-- The bucket `hourly_map[datetime]`. -/
def hourlyBucket (fs : List (String × Forecast)) (datetime : String) :
    List (String × HourlyForecast) :=
  (flattenHourly fs).filter (fun p => p.2.datetime = datetime)

/-- `ComboProvider::combine_forecasts` from `combo_enhanced.rs`. -/
def combine_forecasts (weights : List (String × ℚ))
    (fs : List (String × Forecast)) : Except WeatherError Forecast :=
  if fs.isEmpty then
    .error (.NotFound "No forecast data available from any provider")
  else
    let dailyDates := dedupFirst ((flattenDaily fs).map (fun p => p.2.date))
    let combined_daily :=
      (dailyDates.map (fun d => combineDailyBucket weights d (dailyBucket fs d))).mergeSort
        (fun a b => decide (a.date ≤ b.date))
    let hourlyKeys := dedupFirst ((flattenHourly fs).map (fun p => p.2.datetime))
    let combined_hourly :=
      if (flattenHourly fs).isEmpty then none
      else some
        ((hourlyKeys.map (fun d => combineHourlyBucket weights d (hourlyBucket fs d))).mergeSort
          (fun a b => decide (a.datetime ≤ b.datetime)))
    .ok
      { location := (fs.head?.map (fun p => p.2.location)).getD unknownLocation
        provider := "Combo"
        daily := combined_daily
        hourly := combined_hourly }

/-- The de-dup key `format!("\x7b\x7d-\x7b\x7d", alert.title, alert.start)`
of `merge_alerts`, computed from the original (pre-tag) title. -/
def alertKey (a : Alert) : String :=
  a.title ++ "-" ++ a.start

/-- The `(provider, alert)` pairs visited by the two nested loops of
`merge_alerts`, in visit order. -/
def flattenAlerts (l : List (String × List Alert)) : List (String × Alert) :=
  l.flatMap (fun p => p.2.map (fun a => (p.1, a)))

/-- The de-duplication pass of `merge_alerts`: keep a pair iff its key is
not in the `seen_alerts` set, inserting the key when kept. -/
def dedupAlerts (seen : List String) : List (String × Alert) → List (String × Alert)
  | [] => []
  | (prov, a) :: rest =>
    if alertKey a ∈ seen then dedupAlerts seen rest
    else (prov, a) :: dedupAlerts (alertKey a :: seen) rest

/-- Title tagging of a kept alert in `merge_alerts`:
`alert.title = format!("[\x7b\x7d] \x7b\x7d", provider, alert.title)`. -/
def tagAlert (p : String × Alert) : Alert :=
  { p.2 with title := "[" ++ p.1 ++ "] " ++ p.2.title }

/-- The comparator of `all_alerts.sort_by(|a, b| b.severity.cmp(&a.severity))`,
as a `Bool` relation for `mergeSort` (descending severity). -/
def sevDescBool (a b : Alert) : Bool :=
  decide (b.severity.rank ≤ a.severity.rank)

/-- `ComboProvider::merge_alerts` from `combo_enhanced.rs`: de-duplicate
by `alertKey` keeping the first-encountered alert tagged with its
provider's name, then stable-sort descending by severity. -/
def merge_alerts (l : List (String × List Alert)) : List Alert :=
  ((dedupAlerts [] (flattenAlerts l)).map tagAlert).mergeSort sevDescBool

/-- `RateLimiter` from `common.rs`; `Instant` is modelled as `Nat`
seconds. -/
structure RateLimiter where
  max_requests : Nat
  window_seconds : Nat
  requests : List Nat
deriving DecidableEq, Repr

/-- `RateLimiter::new`. -/
def RateLimiter.new (max_requests window_seconds : Nat) : RateLimiter :=
  { max_requests := max_requests, window_seconds := window_seconds, requests := [] }

/-- `RateLimiter::check_rate_limit` from `common.rs`: retain the
timestamps within the window, then push `now` and return `true` iff the
retained count is below `max_requests`. -/
def check_rate_limit (rl : RateLimiter) (now : Nat) : Bool × RateLimiter :=
  let kept := rl.requests.filter (fun t => now - t < rl.window_seconds)
  if kept.length < rl.max_requests then
    (true, { rl with requests := kept ++ [now] })
  else
    (false, { rl with requests := kept })

/-- Run a sequence of `check_rate_limit` calls at the given instants. -/
def runCalls (rl : RateLimiter) : List Nat → RateLimiter
  | [] => rl
  | t :: ts => runCalls (check_rate_limit rl t).2 ts

/-- The list of admission results of `n` consecutive `check_rate_limit`
calls all made at instant `now`. -/
def callsAt (rl : RateLimiter) (now : Nat) : Nat → List Bool
  | 0 => []
  | n + 1 =>
    (check_rate_limit rl now).1 :: callsAt (check_rate_limit rl now).2 now n

/-- A cached `serde_json::Value`, modelled by its provenance: a JSON
round-trip at the writing type is the identity, a `from_value` at a
different type fails (the caller then treats it as a miss). -/
inductive CacheValue where
  | weather (w : Weather)
  | forecast (f : Forecast)
  | alerts (a : List Alert)
deriving DecidableEq, Repr

/-- `serde_json::from_value::<Weather>` on a cached value. -/
def CacheValue.asWeather : CacheValue → Option Weather
  | .weather w => some w
  | _ => none

/-- `serde_json::from_value::<Forecast>` on a cached value. -/
def CacheValue.asForecast : CacheValue → Option Forecast
  | .forecast f => some f
  | _ => none

/-- `serde_json::from_value::<Vec<Alert>>` on a cached value. -/
def CacheValue.asAlerts : CacheValue → Option (List Alert)
  | .alerts a => some a
  | _ => none

/-- `CacheEntry` from `combo_enhanced.rs`. -/
structure CacheEntry where
  value : CacheValue
  timestamp : Nat
deriving DecidableEq, Repr

/-- `WeatherCache` from `combo_enhanced.rs` (the `HashMap` as an
association list). -/
structure WeatherCache where
  data : List (String × CacheEntry)
deriving DecidableEq, Repr

/-- `WeatherCache::new`. -/
def WeatherCache.new : WeatherCache := ⟨[]⟩

/-- `WeatherCache::get` from `combo_enhanced.rs`: return the stored
value iff an entry exists and `now - entry.timestamp < ttl_secs`. -/
def WeatherCache.get (c : WeatherCache) (key : String) (ttl_secs : Nat)
    (now : Nat) : Option CacheValue :=
  (lookupAssoc key c.data).bind (fun entry =>
    if now - entry.timestamp < ttl_secs then some entry.value else none)

/-- `WeatherCache::set` from `combo_enhanced.rs`: unconditional insert
stamped with the current time. -/
def WeatherCache.set (c : WeatherCache) (key : String) (value : CacheValue)
    (now : Nat) : WeatherCache :=
  ⟨insertAssoc key { value := value, timestamp := now } c.data⟩

/-- A configured adapter behind the `WeatherProvider` trait object, at a
fixed query: its name, feature support, and the (pre-determined) outcome
of each async method. -/
structure Provider where
  name : String
  supports : WeatherFeature → Bool
  currentResult : Except WeatherError Weather
  forecastResult : Except WeatherError Forecast
  alertsResult : Except WeatherError (List Alert)
  historicalResult : Except WeatherError HistoricalData

/-- `ComboProvider` from `combo_enhanced.rs`. -/
structure ComboProvider where
  providers : List Provider
  weights : List (String × ℚ)
  cache : WeatherCache
  cache_duration_secs : Nat
  fallback_enabled : Bool

/-- `ComboProvider::new`: empty providers and weights, 300 s cache,
fallback enabled. -/
def ComboProvider.new : ComboProvider :=
  { providers := []
    weights := []
    cache := WeatherCache.new
    cache_duration_secs := 300
    fallback_enabled := true }

/-- `ComboProvider::add_provider`: append the adapter and insert its
weight keyed by `provider.name()`. -/
def ComboProvider.add_provider (c : ComboProvider) (provider : Provider)
    (weight : ℚ) : ComboProvider :=
  { c with
    providers := c.providers ++ [provider]
    weights := insertAssoc provider.name weight c.weights }

/-- `ComboProvider::set_cache_duration`. -/
def ComboProvider.set_cache_duration (c : ComboProvider) (seconds : Nat) :
    ComboProvider :=
  { c with cache_duration_secs := seconds }

/-- `ComboProvider::set_fallback_enabled`. -/
def ComboProvider.set_fallback_enabled (c : ComboProvider) (enabled : Bool) :
    ComboProvider :=
  { c with fallback_enabled := enabled }

/-- The fan-out loop of `ComboProvider::get_current_weather`: collect
`(name, data)` for each success, break after the first success when
fallback is disabled. The second component counts the adapter calls
actually made. -/
def currentFanout (fallback_enabled : Bool) :
    List Provider → List (String × Weather) × Nat
  | [] => ([], 0)
  | p :: ps =>
    match p.currentResult with
    | .ok data =>
      if fallback_enabled then
        let r := currentFanout fallback_enabled ps
        ((p.name, data) :: r.1, r.2 + 1)
      else ([(p.name, data)], 1)
    | .error _ =>
      let r := currentFanout fallback_enabled ps
      (r.1, r.2 + 1)

/-- The fan-out loop of `ComboProvider::get_forecast`, gated on
`supports_feature(Forecast)` (unsupported adapters are skipped without a
call). -/
def forecastFanout (fallback_enabled : Bool) :
    List Provider → List (String × Forecast) × Nat
  | [] => ([], 0)
  | p :: ps =>
    if p.supports .Forecast then
      match p.forecastResult with
      | .ok data =>
        if fallback_enabled then
          let r := forecastFanout fallback_enabled ps
          ((p.name, data) :: r.1, r.2 + 1)
        else ([(p.name, data)], 1)
      | .error _ =>
        let r := forecastFanout fallback_enabled ps
        (r.1, r.2 + 1)
    else forecastFanout fallback_enabled ps

/-- The fan-out loop of `ComboProvider::get_alerts`, gated on
`supports_feature(Alerts)`; it never breaks early (the fallback flag is
not consulted). -/
def alertsFanout : List Provider → List (String × List Alert) × Nat
  | [] => ([], 0)
  | p :: ps =>
    if p.supports .Alerts then
      match p.alertsResult with
      | .ok data =>
        let r := alertsFanout ps
        ((p.name, data) :: r.1, r.2 + 1)
      | .error _ =>
        let r := alertsFanout ps
        (r.1, r.2 + 1)
    else alertsFanout ps

/-- The fan-out loop of `ComboProvider::get_historical`, gated on
`supports_feature(HistoricalData)`, breaking after the first success when
fallback is disabled. -/
def historicalFanout (fallback_enabled : Bool) :
    List Provider → List (String × HistoricalData) × Nat
  | [] => ([], 0)
  | p :: ps =>
    if p.supports .HistoricalData then
      match p.historicalResult with
      | .ok data =>
        if fallback_enabled then
          let r := historicalFanout fallback_enabled ps
          ((p.name, data) :: r.1, r.2 + 1)
        else ([(p.name, data)], 1)
      | .error _ =>
        let r := historicalFanout fallback_enabled ps
        (r.1, r.2 + 1)
    else historicalFanout fallback_enabled ps

/-- `ComboProvider::get_current_weather`: cache lookup on
`"current:" ++ location`; on miss (or undecodable hit) fan out, combine
with `average_weather`, and store the success in the cache. Returns the
outcome and the provider with its updated cache. -/
def ComboProvider.get_current_weather (c : ComboProvider) (location : String)
    (now : Nat) : Except WeatherError Weather × ComboProvider :=
  let cache_key := "current:" ++ location
  match (c.cache.get cache_key c.cache_duration_secs now).bind CacheValue.asWeather with
  | some w => (.ok w, c)
  | none =>
    let results := (currentFanout c.fallback_enabled c.providers).1
    match average_weather c.weights (Int.ofNat now) results with
    | .ok w => (.ok w, { c with cache := c.cache.set cache_key (.weather w) now })
    | .error e => (.error e, c)

/-- `ComboProvider::get_forecast`: cache lookup on
`"forecast:" ++ location ++ ":" ++ days`; on miss fan out over
forecast-capable adapters, combine, and cache the success. -/
def ComboProvider.get_forecast (c : ComboProvider) (location : String)
    (days : Nat) (now : Nat) : Except WeatherError Forecast × ComboProvider :=
  let cache_key := "forecast:" ++ location ++ ":" ++ toString days
  match (c.cache.get cache_key c.cache_duration_secs now).bind CacheValue.asForecast with
  | some f => (.ok f, c)
  | none =>
    let results := (forecastFanout c.fallback_enabled c.providers).1
    match combine_forecasts c.weights results with
    | .ok f => (.ok f, { c with cache := c.cache.set cache_key (.forecast f) now })
    | .error e => (.error e, c)

/-- `ComboProvider::get_alerts`: cache lookup on
`"alerts:" ++ location`; on miss fan out over alert-capable adapters,
merge (never an error), and cache the merged list. -/
def ComboProvider.get_alerts (c : ComboProvider) (location : String)
    (now : Nat) : Except WeatherError (List Alert) × ComboProvider :=
  let cache_key := "alerts:" ++ location
  match (c.cache.get cache_key c.cache_duration_secs now).bind CacheValue.asAlerts with
  | some a => (.ok a, c)
  | none =>
    let results := (alertsFanout c.providers).1
    let alerts := merge_alerts results
    (.ok alerts, { c with cache := c.cache.set cache_key (.alerts alerts) now })

/-- `ComboProvider::get_historical`: no cache; fan out over
historical-capable adapters and return the first collected result
verbatim, or `NotFound` when none succeeded. -/
def ComboProvider.get_historical (c : ComboProvider) :
    Except WeatherError HistoricalData :=
  match (historicalFanout c.fallback_enabled c.providers).1 with
  | [] => .error (.NotFound "No historical data available")
  | first :: _ => .ok first.2

/-! ## Spec-side formulas (the claims' words, for comparison with the
embedded code) and sample data for witnesses. -/

/-- Spec formula: weighted sum of the contributing temperatures. -/
def weightedTempSum (weights : List (String × ℚ)) (ws : List (String × Weather)) : ℚ :=
  (ws.map (fun p => p.2.temperature * weightOf weights p.1)).sum

/-- Spec formula: sum of the weights of exactly the providers that
produced a result. -/
def totalWeight (weights : List (String × ℚ)) (ws : List (String × Weather)) : ℚ :=
  (ws.map (fun p => weightOf weights p.1)).sum

/-- The providers that supplied the optional field read by `f`. -/
def suppliersOf (f : Weather → Option ℚ) (ws : List (String × Weather)) :
    List (String × Weather) :=
  ws.filter (fun p => (f p.2).isSome)

/-- Spec formula: sum of `value * weight` over exactly the suppliers of
the field. -/
def suppliedSum (weights : List (String × ℚ)) (f : Weather → Option ℚ)
    (ws : List (String × Weather)) : ℚ :=
  ((suppliersOf f ws).map (fun p => ((f p.2).getD 0) * weightOf weights p.1)).sum

/-- Spec formula: sum of the weights of exactly the suppliers of the
field. -/
def suppliedWeight (weights : List (String × ℚ)) (f : Weather → Option ℚ)
    (ws : List (String × Weather)) : ℚ :=
  ((suppliersOf f ws).map (fun p => weightOf weights p.1)).sum

/-- Spec formula for a combined optional field: `None` when no provider
supplied it, otherwise the field's own weighted average over exactly its
suppliers. -/
def specOptField (weights : List (String × ℚ)) (f : Weather → Option ℚ)
    (ws : List (String × Weather)) : Option ℚ :=
  if (suppliersOf f ws).isEmpty then none
  else some (suppliedSum weights f ws / suppliedWeight weights f ws)

/-- First non-`none` element of a list of options. -/
def firstSome {α : Type} : List (Option α) → Option α
  | [] => none
  | o :: os => o.or (firstSome os)

/-- Sample weather record for witnesses. -/
def sampleWeather (temp : ℚ) (hum : Option ℚ) : Weather :=
  { temperature := temp
    feels_like := none
    humidity := hum
    pressure := none
    wind_speed := none
    wind_direction := none
    description := "clear"
    icon := none
    precipitation := none
    visibility := none
    uv_index := none
    provider := "sample"
    location := unknownLocation
    timestamp := 0 }

/-- Sample adapter whose every method fails. -/
def failingProvider (n : String) : Provider :=
  { name := n
    supports := fun _ => true
    currentResult := .error (.NetworkError "down")
    forecastResult := .error (.NetworkError "down")
    alertsResult := .error (.NetworkError "down")
    historicalResult := .error (.NetworkError "down") }

/-- Sample adapter whose current-weather call succeeds. -/
def okProvider (n : String) (w : Weather) : Provider :=
  { failingProvider n with currentResult := .ok w }

/-- Sample daily forecast for witnesses. -/
def sampleDaily (date : String) (tmin tmax : ℚ) (sr : Option String) : DailyForecast :=
  { date := date
    temperature_min := tmin
    temperature_max := tmax
    humidity := none
    precipitation_probability := none
    precipitation_amount := none
    wind_speed := none
    wind_direction := none
    description := "d"
    icon := none
    sunrise := sr
    sunset := none }

/-- Sample forecast for witnesses. -/
def sampleForecast (ds : List DailyForecast) : Forecast :=
  { location := unknownLocation
    provider := "sample"
    daily := ds
    hourly := none }

/-- Sample fan-out result for the forecast witness: provider A has one
entry for 2024-01-02, provider B has entries for 2024-01-01 and
2024-01-02 (shared date). -/
def sampleFs : List (String × Forecast) :=
  [("A", sampleForecast [sampleDaily "2024-01-02" 1 5 (some "srA")]),
   ("B", sampleForecast
     [sampleDaily "2024-01-01" 0 4 none, sampleDaily "2024-01-02" 2 6 (some "srB")])]

/-! ## Helper lemmas -/

theorem lookup_insertAssoc_self {β : Type} (k : String) (v : β) (l : List (String × β)) :
    lookupAssoc k (insertAssoc k v l) = some v := by
  induction l with
  | nil => simp [insertAssoc, lookupAssoc]
  | cons h t ih =>
    obtain ⟨k', v'⟩ := h
    by_cases hk : k' = k
    · simp [insertAssoc, hk, lookupAssoc]
    · simp [insertAssoc, hk, lookupAssoc, ih]

theorem lookup_insertAssoc_ne {β : Type} (k k' : String) (v : β) (l : List (String × β))
    (h : k' ≠ k) : lookupAssoc k' (insertAssoc k v l) = lookupAssoc k' l := by
  have h' : ¬ k = k' := fun e => h e.symm
  induction l with
  | nil => simp [insertAssoc, lookupAssoc, h']
  | cons hd t ih =>
    obtain ⟨k₀, v₀⟩ := hd
    by_cases hk : k₀ = k
    · subst hk
      simp [insertAssoc, lookupAssoc, h']
    · by_cases he : k₀ = k'
      · simp [insertAssoc, hk, lookupAssoc, he, h]
      · simp [insertAssoc, hk, lookupAssoc, he, ih]

/-! ## Claims -/

/-- C9: adding two adapters with the same reported name appends both to
the ordered provider list, while the weight map afterwards associates the
shared name with the second weight — the second `add_provider` silently
overwrites the first's weight. -/
theorem add_provider_same_name_overwrites (c : ComboProvider)
    (a1 a2 : Provider) (w1 w2 : ℚ) (hname : a1.name = a2.name) :
    ((c.add_provider a1 w1).add_provider a2 w2).providers = c.providers ++ [a1, a2] ∧
    lookupAssoc a1.name ((c.add_provider a1 w1).add_provider a2 w2).weights = some w2 := by
  constructor
  · simp [ComboProvider.add_provider]
  · simp only [ComboProvider.add_provider, hname]
    exact lookup_insertAssoc_self _ _ _

/-- Witness for C9 at a concrete builder chain: the two sample adapters
share the name `"X"`, and the stored weight is the second one. -/
theorem add_provider_same_name_overwrites_witness :
    (failingProvider "X").name = (okProvider "X" (sampleWeather 20 none)).name ∧
    (((ComboProvider.new.add_provider (failingProvider "X") 2).add_provider
        (okProvider "X" (sampleWeather 20 none)) 3).providers =
      ComboProvider.new.providers ++ [failingProvider "X", okProvider "X" (sampleWeather 20 none)] ∧
    lookupAssoc (failingProvider "X").name
        ((ComboProvider.new.add_provider (failingProvider "X") 2).add_provider
          (okProvider "X" (sampleWeather 20 none)) 3).weights =
      some 3) :=
  ⟨rfl, add_provider_same_name_overwrites ComboProvider.new (failingProvider "X")
    (okProvider "X" (sampleWeather 20 none)) 2 3 rfl⟩

/-- C5: `WeatherCache.get` returns the stored value iff an entry for the
key exists and `now - stored_timestamp < ttl` strictly, returning `none`
otherwise while the stale entry remains in the map (it can still be read
back with a larger TTL); `WeatherCache.set` unconditionally overwrites
the entry for the key with the new value stamped `now`, leaving every
other key unchanged. -/
theorem weather_cache_get_set_spec (c : WeatherCache) (key : String)
    (ttl now : Nat) (value : CacheValue)
    (hts : ∀ p ∈ c.data, p.2.timestamp ≤ now) :
    (∀ v, c.get key ttl now = some v ↔
      ∃ ts, lookupAssoc key c.data = some { value := v, timestamp := ts } ∧
        now - ts < ttl) ∧
    (∀ e, lookupAssoc key c.data = some e →
      c.get key (now - e.timestamp + 1) now = some e.value) ∧
    lookupAssoc key (c.set key value now).data =
      some { value := value, timestamp := now } ∧
    (∀ k', k' ≠ key →
      lookupAssoc k' (c.set key value now).data = lookupAssoc k' c.data) := by
  refine ⟨?_, ?_, ?_, ?_⟩
  · intro v
    unfold WeatherCache.get
    cases hq : lookupAssoc key c.data with
    | none => simp
    | some e =>
      obtain ⟨ev, ets⟩ := e
      by_cases hc : now - ets < ttl
      · simp only [Option.some_bind, if_pos hc, Option.some_inj]
        constructor
        · intro hv
          exact ⟨ets, by simp [hv], hc⟩
        · rintro ⟨ts, hsome, _⟩
          simp only [Option.some_inj, CacheEntry.mk.injEq] at hsome
          exact hsome.1
      · simp only [Option.some_bind, if_neg hc]
        constructor
        · intro hv
          exact absurd hv (by simp)
        · rintro ⟨ts, hsome, hlt⟩
          simp only [Option.some_inj, CacheEntry.mk.injEq] at hsome
          exact absurd (hsome.2 ▸ hlt) hc
  · intro e he
    unfold WeatherCache.get
    rw [he]
    simp [Nat.lt_succ_self]
  · exact lookup_insertAssoc_self _ _ _
  · intro k' hk'
    exact lookup_insertAssoc_ne _ _ _ _ hk'

/-- Witness for C5 on a one-entry cache (entry written at second 3, read
at second 5 with a TTL of 4). -/
theorem weather_cache_get_set_spec_witness :
    (∀ p ∈ (WeatherCache.mk [("k", { value := .alerts [], timestamp := 3 })]).data,
      p.2.timestamp ≤ 5) ∧
    ((∀ v, (WeatherCache.mk [("k", { value := .alerts [], timestamp := 3 })]).get "k" 4 5 = some v ↔
      ∃ ts, lookupAssoc "k" (WeatherCache.mk [("k", { value := .alerts [], timestamp := 3 })]).data =
          some { value := v, timestamp := ts } ∧ 5 - ts < 4) ∧
    (∀ e, lookupAssoc "k" (WeatherCache.mk [("k", { value := .alerts [], timestamp := 3 })]).data = some e →
      (WeatherCache.mk [("k", { value := .alerts [], timestamp := 3 })]).get "k" (5 - e.timestamp + 1) 5 =
        some e.value) ∧
    lookupAssoc "k"
        ((WeatherCache.mk [("k", { value := .alerts [], timestamp := 3 })]).set "k"
          (.weather (sampleWeather 1 none)) 5).data =
      some { value := .weather (sampleWeather 1 none), timestamp := 5 } ∧
    (∀ k', k' ≠ "k" →
      lookupAssoc k'
          ((WeatherCache.mk [("k", { value := .alerts [], timestamp := 3 })]).set "k"
            (.weather (sampleWeather 1 none)) 5).data =
        lookupAssoc k' (WeatherCache.mk [("k", { value := .alerts [], timestamp := 3 })]).data)) :=
  ⟨by decide,
    weather_cache_get_set_spec (WeatherCache.mk [("k", { value := .alerts [], timestamp := 3 })])
      "k" 4 5 (.weather (sampleWeather 1 none)) (by decide)⟩

theorem check_rate_limit_fields (rl : RateLimiter) (now : Nat) :
    (check_rate_limit rl now).2.max_requests = rl.max_requests ∧
    (check_rate_limit rl now).2.window_seconds = rl.window_seconds := by
  simp only [check_rate_limit]
  by_cases h :
      (rl.requests.filter (fun t => now - t < rl.window_seconds)).length < rl.max_requests <;>
    simp [h]

theorem check_rate_limit_length (rl : RateLimiter) (now : Nat)
    (h : rl.requests.length ≤ rl.max_requests) :
    (check_rate_limit rl now).2.requests.length ≤ rl.max_requests := by
  simp only [check_rate_limit]
  by_cases hlen :
      (rl.requests.filter (fun t => now - t < rl.window_seconds)).length < rl.max_requests
  · simp only [if_pos hlen, List.length_append, List.length_cons, List.length_nil]
    omega
  · simp only [if_neg hlen]
    exact le_trans (List.length_filter_le _ _) h

theorem check_rate_limit_mem (rl : RateLimiter) (now : Nat)
    (hW : 0 < rl.window_seconds) :
    ∀ t ∈ (check_rate_limit rl now).2.requests, now - t < rl.window_seconds := by
  simp only [check_rate_limit]
  by_cases hlen :
      (rl.requests.filter (fun t => now - t < rl.window_seconds)).length < rl.max_requests
  · simp only [if_pos hlen]
    intro t ht
    rcases List.mem_append.mp ht with hin | hnow
    · exact of_decide_eq_true (List.mem_filter.mp hin).2
    · have : t = now := by simpa using hnow
      omega
  · simp only [if_neg hlen]
    intro t ht
    exact of_decide_eq_true (List.mem_filter.mp ht).2

theorem runCalls_inv (l : List Nat) : ∀ rl : RateLimiter,
    rl.requests.length ≤ rl.max_requests →
    (runCalls rl l).requests.length ≤ (runCalls rl l).max_requests ∧
    (runCalls rl l).max_requests = rl.max_requests ∧
    (runCalls rl l).window_seconds = rl.window_seconds := by
  induction l with
  | nil => exact fun rl h => ⟨h, rfl, rfl⟩
  | cons t ts ih =>
    intro rl h
    have hf := check_rate_limit_fields rl t
    have hl := check_rate_limit_length rl t h
    have hrec := ih (check_rate_limit rl t).2 (by rw [hf.1]; exact hl)
    refine ⟨hrec.1, ?_, ?_⟩
    · rw [show runCalls rl (t :: ts) = runCalls (check_rate_limit rl t).2 ts from rfl,
        hrec.2.1, hf.1]
    · rw [show runCalls rl (t :: ts) = runCalls (check_rate_limit rl t).2 ts from rfl,
        hrec.2.2, hf.2]

/-- C10 counterexample: with `window_seconds = 0` (a constructible
configuration), after the first admitted call the internal sequence holds
the call's own timestamp, which does not lie strictly within the
zero-length window at the time of the call. -/
theorem rate_limiter_invariant_cex :
    (check_rate_limit (RateLimiter.new 1 0) 5).2.requests = [5] ∧
    ¬ (5 - 5 < (RateLimiter.new 1 0).window_seconds) := by decide

/-- C10 (amended: requires `0 < window_seconds`): starting from a fresh
`RateLimiter`, after every `check_rate_limit` call — whatever calls came
before — the internal sequence holds at most `max_requests` timestamps,
and every held timestamp lies within the window of the call
(`now - t < window_seconds`). -/
theorem rate_limiter_invariant (N W : Nat) (hW : 0 < W)
    (past : List Nat) (now : Nat) :
    (check_rate_limit (runCalls (RateLimiter.new N W) past) now).2.requests.length ≤ N ∧
    ∀ t ∈ (check_rate_limit (runCalls (RateLimiter.new N W) past) now).2.requests,
      now - t < W := by
  have base : (RateLimiter.new N W).requests.length ≤ (RateLimiter.new N W).max_requests := by
    simp [RateLimiter.new]
  have hrun := runCalls_inv past (RateLimiter.new N W) base
  have hmaxN : (runCalls (RateLimiter.new N W) past).max_requests = N := hrun.2.1
  have hwinW : (runCalls (RateLimiter.new N W) past).window_seconds = W := hrun.2.2
  constructor
  · have := check_rate_limit_length (runCalls (RateLimiter.new N W) past) now hrun.1
    rwa [hmaxN] at this
  · have := check_rate_limit_mem (runCalls (RateLimiter.new N W) past) now
      (by rw [hwinW]; exact hW)
    rwa [hwinW] at this

/-- Witness for the amended C10 at `N = 1`, `W = 1`, one past call. -/
theorem rate_limiter_invariant_witness :
    0 < 1 ∧
    ((check_rate_limit (runCalls (RateLimiter.new 1 1) [0]) 0).2.requests.length ≤ 1 ∧
    ∀ t ∈ (check_rate_limit (runCalls (RateLimiter.new 1 1) [0]) 0).2.requests,
      0 - t < 1) :=
  ⟨by decide, rate_limiter_invariant 1 1 (by decide) [0] 0⟩

theorem check_rate_limit_replicate (N W T k : Nat) (hW : 0 < W) :
    check_rate_limit ⟨N, W, List.replicate k T⟩ T =
      if k < N then (true, ⟨N, W, List.replicate (k + 1) T⟩)
      else (false, ⟨N, W, List.replicate k T⟩) := by
  simp only [check_rate_limit]
  have hfilter : (List.replicate k T).filter (fun t => T - t < W) = List.replicate k T := by
    apply List.filter_eq_self.mpr
    intro a ha
    have ha' : a = T := List.eq_of_mem_replicate ha
    subst ha'
    simpa [Nat.sub_self] using hW
  rw [hfilter]
  simp only [List.length_replicate]
  by_cases h : k < N
  · rw [if_pos h, if_pos h, ← List.replicate_succ']
  · rw [if_neg h, if_neg h]

theorem callsAt_replicate (N W T : Nat) (hW : 0 < W) :
    ∀ j k, k + j = N + 1 → k ≤ N →
      callsAt ⟨N, W, List.replicate k T⟩ T j =
        List.replicate (N - k) true ++ [false] := by
  intro j
  induction j with
  | zero => intro k hk hle; omega
  | succ j ih =>
    intro k hk hle
    by_cases h : k < N
    · have step := check_rate_limit_replicate N W T k hW
      rw [if_pos h] at step
      simp only [callsAt, step]
      rw [ih (k + 1) (by omega) (by omega)]
      have hNk : N - k = (N - (k + 1)) + 1 := by omega
      rw [hNk, List.replicate_succ]
      simp
    · have hkN : k = N := by omega
      have hj : j = 0 := by omega
      subst hj
      rw [hkN]
      have step := check_rate_limit_replicate N W T N hW
      rw [if_neg (lt_irrefl N)] at step
      simp [callsAt, step]

theorem runCalls_replicate (N W T : Nat) (hW : 0 < W) :
    ∀ j k, k ≤ N →
      runCalls ⟨N, W, List.replicate k T⟩ (List.replicate j T) =
        ⟨N, W, List.replicate (min (k + j) N) T⟩ := by
  intro j
  induction j with
  | zero =>
    intro k hk
    have hm : min (k + 0) N = k := by omega
    rw [hm]
    rfl
  | succ j ih =>
    intro k hk
    rw [List.replicate_succ]
    by_cases h : k < N
    · have step := check_rate_limit_replicate N W T k hW
      rw [if_pos h] at step
      simp only [runCalls, step]
      rw [ih (k + 1) (by omega)]
      have hm : min (k + 1 + j) N = min (k + (j + 1)) N := by omega
      rw [hm]
    · have hkN : k = N := by omega
      rw [hkN]
      have step := check_rate_limit_replicate N W T N hW
      rw [if_neg (lt_irrefl N)] at step
      simp only [runCalls, step]
      rw [ih N (le_refl N)]
      have hm : min (N + j) N = min (N + (j + 1)) N := by omega
      rw [hm]

/-- C8: `check_rate_limit` first prunes every timestamp outside the
window, then admits (appending `now`, returning `true`) iff the remaining
count is strictly below `max_requests`, otherwise returns `false` with no
mutation beyond the prune; consequently a fresh limiter for `N` requests
per `W`-second window admits exactly the first `N` of `N + 1` calls made
at one instant, rejects the last, and admits again `W` seconds later. -/
theorem check_rate_limit_spec (N W T : Nat) (hN : 0 < N) (hW : 0 < W) :
    (∀ (rl : RateLimiter) (now : Nat),
      ((check_rate_limit rl now).1 = true ↔
        (rl.requests.filter (fun t => now - t < rl.window_seconds)).length <
          rl.max_requests) ∧
      (check_rate_limit rl now).2.requests =
        (if (rl.requests.filter (fun t => now - t < rl.window_seconds)).length <
            rl.max_requests
          then rl.requests.filter (fun t => now - t < rl.window_seconds) ++ [now]
          else rl.requests.filter (fun t => now - t < rl.window_seconds))) ∧
    callsAt (RateLimiter.new N W) T (N + 1) = List.replicate N true ++ [false] ∧
    (check_rate_limit (runCalls (RateLimiter.new N W) (List.replicate (N + 1) T))
      (T + W)).1 = true := by
  refine ⟨?_, ?_, ?_⟩
  · intro rl now
    simp only [check_rate_limit]
    by_cases h :
        (rl.requests.filter (fun t => now - t < rl.window_seconds)).length <
          rl.max_requests <;>
      simp [h]
  · have hnew : RateLimiter.new N W = (⟨N, W, List.replicate 0 T⟩ : RateLimiter) := rfl
    rw [hnew, callsAt_replicate N W T hW (N + 1) 0 (by omega) (by omega)]
    simp
  · have hnew : RateLimiter.new N W = (⟨N, W, List.replicate 0 T⟩ : RateLimiter) := rfl
    have hrun := runCalls_replicate N W T hW (N + 1) 0 (by omega)
    have hm : min (0 + (N + 1)) N = N := by omega
    rw [hm] at hrun
    rw [hnew, hrun]
    simp only [check_rate_limit]
    have hfilter : (List.replicate N T).filter (fun t => (T + W) - t < W) = [] := by
      apply List.filter_eq_nil_iff.mpr
      intro a ha
      have ha' : a = T := List.eq_of_mem_replicate ha
      subst ha'
      simp [Nat.add_sub_cancel_left]
    rw [hfilter]
    simp [hN]

/-- Witness for C8 at `N = 2`, `W = 3`, calls at instant `T = 0`. -/
theorem check_rate_limit_spec_witness :
    0 < 2 ∧ 0 < 3 ∧
    ((∀ (rl : RateLimiter) (now : Nat),
      ((check_rate_limit rl now).1 = true ↔
        (rl.requests.filter (fun t => now - t < rl.window_seconds)).length <
          rl.max_requests) ∧
      (check_rate_limit rl now).2.requests =
        (if (rl.requests.filter (fun t => now - t < rl.window_seconds)).length <
            rl.max_requests
          then rl.requests.filter (fun t => now - t < rl.window_seconds) ++ [now]
          else rl.requests.filter (fun t => now - t < rl.window_seconds))) ∧
    callsAt (RateLimiter.new 2 3) 0 (2 + 1) = List.replicate 2 true ++ [false] ∧
    (check_rate_limit (runCalls (RateLimiter.new 2 3) (List.replicate (2 + 1) 0))
      (0 + 3)).1 = true) :=
  ⟨by decide, by decide, check_rate_limit_spec 2 3 0 (by decide) (by decide)⟩

theorem waStep_foldl_temp (weights : List (String × ℚ)) :
    ∀ (ws : List (String × Weather)) (acc : WAcc),
      (ws.foldl (waStep weights) acc).avg_temp =
        acc.avg_temp + weightedTempSum weights ws := by
  intro ws
  induction ws with
  | nil => intro acc; simp [weightedTempSum]
  | cons p t ih =>
    intro acc
    simp only [List.foldl_cons]
    rw [ih]
    simp only [waStep, weightedTempSum, List.map_cons, List.sum_cons]
    ring

theorem waStep_foldl_feels_like (weights : List (String × ℚ)) :
    ∀ (ws : List (String × Weather)) (acc : WAcc),
      (ws.foldl (waStep weights) acc).feels_like =
        ws.foldl (fun sc p => accOpt (weightOf weights p.1) p.2.feels_like sc) acc.feels_like := by
  intro ws
  induction ws with
  | nil => intro acc; rfl
  | cons p t ih =>
    intro acc
    simp only [List.foldl_cons]
    rw [ih]
    rfl

theorem waStep_foldl_humidity (weights : List (String × ℚ)) :
    ∀ (ws : List (String × Weather)) (acc : WAcc),
      (ws.foldl (waStep weights) acc).humidity =
        ws.foldl (fun sc p => accOpt (weightOf weights p.1) p.2.humidity sc) acc.humidity := by
  intro ws
  induction ws with
  | nil => intro acc; rfl
  | cons p t ih =>
    intro acc
    simp only [List.foldl_cons]
    rw [ih]
    rfl

theorem waStep_foldl_pressure (weights : List (String × ℚ)) :
    ∀ (ws : List (String × Weather)) (acc : WAcc),
      (ws.foldl (waStep weights) acc).pressure =
        ws.foldl (fun sc p => accOpt (weightOf weights p.1) p.2.pressure sc) acc.pressure := by
  intro ws
  induction ws with
  | nil => intro acc; rfl
  | cons p t ih =>
    intro acc
    simp only [List.foldl_cons]
    rw [ih]
    rfl

theorem waStep_foldl_wind_speed (weights : List (String × ℚ)) :
    ∀ (ws : List (String × Weather)) (acc : WAcc),
      (ws.foldl (waStep weights) acc).wind_speed =
        ws.foldl (fun sc p => accOpt (weightOf weights p.1) p.2.wind_speed sc) acc.wind_speed := by
  intro ws
  induction ws with
  | nil => intro acc; rfl
  | cons p t ih =>
    intro acc
    simp only [List.foldl_cons]
    rw [ih]
    rfl

theorem waStep_foldl_wind_direction (weights : List (String × ℚ)) :
    ∀ (ws : List (String × Weather)) (acc : WAcc),
      (ws.foldl (waStep weights) acc).wind_direction =
        ws.foldl (fun sc p => accOpt (weightOf weights p.1) p.2.wind_direction sc) acc.wind_direction := by
  intro ws
  induction ws with
  | nil => intro acc; rfl
  | cons p t ih =>
    intro acc
    simp only [List.foldl_cons]
    rw [ih]
    rfl

theorem waStep_foldl_precipitation (weights : List (String × ℚ)) :
    ∀ (ws : List (String × Weather)) (acc : WAcc),
      (ws.foldl (waStep weights) acc).precipitation =
        ws.foldl (fun sc p => accOpt (weightOf weights p.1) p.2.precipitation sc) acc.precipitation := by
  intro ws
  induction ws with
  | nil => intro acc; rfl
  | cons p t ih =>
    intro acc
    simp only [List.foldl_cons]
    rw [ih]
    rfl

theorem waStep_foldl_visibility (weights : List (String × ℚ)) :
    ∀ (ws : List (String × Weather)) (acc : WAcc),
      (ws.foldl (waStep weights) acc).visibility =
        ws.foldl (fun sc p => accOpt (weightOf weights p.1) p.2.visibility sc) acc.visibility := by
  intro ws
  induction ws with
  | nil => intro acc; rfl
  | cons p t ih =>
    intro acc
    simp only [List.foldl_cons]
    rw [ih]
    rfl

theorem waStep_foldl_uv_index (weights : List (String × ℚ)) :
    ∀ (ws : List (String × Weather)) (acc : WAcc),
      (ws.foldl (waStep weights) acc).uv_index =
        ws.foldl (fun sc p => accOpt (weightOf weights p.1) p.2.uv_index sc) acc.uv_index := by
  intro ws
  induction ws with
  | nil => intro acc; rfl
  | cons p t ih =>
    intro acc
    simp only [List.foldl_cons]
    rw [ih]
    rfl

theorem accOpt_foldl (weights : List (String × ℚ)) (f : Weather → Option ℚ) :
    ∀ (ws : List (String × Weather)) (sc : ℚ × ℚ),
      ws.foldl (fun sc p => accOpt (weightOf weights p.1) (f p.2) sc) sc =
        (sc.1 + suppliedSum weights f ws, sc.2 + suppliedWeight weights f ws) := by
  intro ws
  induction ws with
  | nil =>
    intro sc
    simp [suppliedSum, suppliedWeight, suppliersOf]
  | cons p t ih =>
    intro sc
    simp only [List.foldl_cons]
    rw [ih]
    cases hf : f p.2 with
    | none =>
      simp [accOpt, hf, suppliedSum, suppliedWeight, suppliersOf, List.filter_cons]
    | some v =>
      simp only [accOpt, hf, suppliedSum, suppliedWeight, suppliersOf, List.filter_cons,
        Option.isSome_some, decide_True, if_true, List.map_cons, List.sum_cons,
        Option.getD_some, Prod.mk.injEq]
      constructor <;> ring

theorem suppliedWeight_pos (weights : List (String × ℚ)) (f : Weather → Option ℚ)
    (ws : List (String × Weather)) (hw : ∀ p ∈ ws, 0 < weightOf weights p.1)
    (hne : suppliersOf f ws ≠ []) :
    0 < suppliedWeight weights f ws := by
  apply List.sum_pos
  · intro x hx
    obtain ⟨p, hp, rfl⟩ := List.mem_map.mp hx
    exact hw p (List.mem_of_mem_filter hp)
  · simpa using hne

theorem avgOpt_fold_spec (weights : List (String × ℚ)) (f : Weather → Option ℚ)
    (ws : List (String × Weather)) (hw : ∀ p ∈ ws, 0 < weightOf weights p.1) :
    avgOpt (ws.foldl (fun sc p => accOpt (weightOf weights p.1) (f p.2) sc) (0, 0)) =
      specOptField weights f ws := by
  rw [accOpt_foldl]
  by_cases h : suppliersOf f ws = []
  · simp [avgOpt, specOptField, h, suppliedSum, suppliedWeight]
  · have hpos := suppliedWeight_pos weights f ws hw h
    simp [avgOpt, specOptField, h, hpos, List.isEmpty_eq_false]

/-- C1: for every non-empty result list, the combined temperature is the
weighted sum of the contributing temperatures divided by the total weight
of exactly the contributing providers, where a name absent from the
weight map weighs `1.0`. -/
theorem average_weather_temperature (weights : List (String × ℚ)) (now : Int)
    (ws : List (String × Weather)) (hne : ws ≠ []) :
    (∀ n, lookupAssoc n weights = none → weightOf weights n = 1) ∧
    ∃ cw, average_weather weights now ws = .ok cw ∧
      cw.temperature = weightedTempSum weights ws / totalWeight weights ws := by
  constructor
  · intro n h
    simp [weightOf, h]
  · have hne' : ws.isEmpty = false := by
      cases ws with
      | nil => exact absurd rfl hne
      | cons a t => rfl
    simp only [average_weather, hne', Bool.false_eq_true, if_false]
    refine ⟨_, rfl, ?_⟩
    rw [show (ws.foldl (waStep weights) WAcc.init).avg_temp =
          (0 : ℚ) + weightedTempSum weights ws from waStep_foldl_temp weights ws WAcc.init]
    rw [zero_add]
    rfl

/-- Witness for C1: providers A (temp 10, weight 2) and B (temp 20,
weight 1) combine to temperature (10*2 + 20*1) / 3. -/
theorem average_weather_temperature_witness :
    ([("A", sampleWeather 10 none), ("B", sampleWeather 20 none)] :
        List (String × Weather)) ≠ [] ∧
    ((∀ n, lookupAssoc n [("A", (2 : ℚ)), ("B", 1)] = none →
      weightOf [("A", (2 : ℚ)), ("B", 1)] n = 1) ∧
    ∃ cw, average_weather [("A", (2 : ℚ)), ("B", 1)] 0
        [("A", sampleWeather 10 none), ("B", sampleWeather 20 none)] = .ok cw ∧
      cw.temperature =
        weightedTempSum [("A", (2 : ℚ)), ("B", 1)]
            [("A", sampleWeather 10 none), ("B", sampleWeather 20 none)] /
          totalWeight [("A", (2 : ℚ)), ("B", 1)]
            [("A", sampleWeather 10 none), ("B", sampleWeather 20 none)]) ∧
    weightedTempSum [("A", (2 : ℚ)), ("B", 1)]
        [("A", sampleWeather 10 none), ("B", sampleWeather 20 none)] /
      totalWeight [("A", (2 : ℚ)), ("B", 1)]
        [("A", sampleWeather 10 none), ("B", sampleWeather 20 none)] = 40 / 3 :=
  ⟨List.cons_ne_nil _ _,
    average_weather_temperature [("A", (2 : ℚ)), ("B", 1)] 0
      [("A", sampleWeather 10 none), ("B", sampleWeather 20 none)]
      (List.cons_ne_nil _ _),
    by norm_num [weightedTempSum, totalWeight, weightOf, lookupAssoc, sampleWeather,
      (show ("A" : String) ≠ "B" from by decide)]⟩

/-- C2: every optional field of the combined `Weather` is the field's own
weighted average over exactly the providers that supplied it (its own
accumulator, not `total_weight`), and `none` when no provider supplied
it; positive weights assumed (`f64` weights in the code). -/
theorem average_weather_optional_fields (weights : List (String × ℚ)) (now : Int)
    (ws : List (String × Weather)) (hne : ws ≠ [])
    (hw : ∀ p ∈ ws, 0 < weightOf weights p.1) :
    ∃ cw, average_weather weights now ws = .ok cw ∧
      cw.feels_like = specOptField weights (fun x => x.feels_like) ws ∧
      cw.humidity = specOptField weights (fun x => x.humidity) ws ∧
      cw.pressure = specOptField weights (fun x => x.pressure) ws ∧
      cw.wind_speed = specOptField weights (fun x => x.wind_speed) ws ∧
      cw.wind_direction = specOptField weights (fun x => x.wind_direction) ws ∧
      cw.precipitation = specOptField weights (fun x => x.precipitation) ws ∧
      cw.visibility = specOptField weights (fun x => x.visibility) ws ∧
      cw.uv_index = specOptField weights (fun x => x.uv_index) ws := by
  have hne' : ws.isEmpty = false := by
    cases ws with
    | nil => exact absurd rfl hne
    | cons a t => rfl
  simp only [average_weather, hne', Bool.false_eq_true, if_false]
  refine ⟨_, rfl, ?_, ?_, ?_, ?_, ?_, ?_, ?_, ?_⟩
  · rw [show (ws.foldl (waStep weights) WAcc.init).feels_like =
        ws.foldl (fun sc p => accOpt (weightOf weights p.1) p.2.feels_like sc) (0, 0) from
      waStep_foldl_feels_like weights ws WAcc.init]
    exact avgOpt_fold_spec weights (fun x => x.feels_like) ws hw
  · rw [show (ws.foldl (waStep weights) WAcc.init).humidity =
        ws.foldl (fun sc p => accOpt (weightOf weights p.1) p.2.humidity sc) (0, 0) from
      waStep_foldl_humidity weights ws WAcc.init]
    exact avgOpt_fold_spec weights (fun x => x.humidity) ws hw
  · rw [show (ws.foldl (waStep weights) WAcc.init).pressure =
        ws.foldl (fun sc p => accOpt (weightOf weights p.1) p.2.pressure sc) (0, 0) from
      waStep_foldl_pressure weights ws WAcc.init]
    exact avgOpt_fold_spec weights (fun x => x.pressure) ws hw
  · rw [show (ws.foldl (waStep weights) WAcc.init).wind_speed =
        ws.foldl (fun sc p => accOpt (weightOf weights p.1) p.2.wind_speed sc) (0, 0) from
      waStep_foldl_wind_speed weights ws WAcc.init]
    exact avgOpt_fold_spec weights (fun x => x.wind_speed) ws hw
  · rw [show (ws.foldl (waStep weights) WAcc.init).wind_direction =
        ws.foldl (fun sc p => accOpt (weightOf weights p.1) p.2.wind_direction sc) (0, 0) from
      waStep_foldl_wind_direction weights ws WAcc.init]
    exact avgOpt_fold_spec weights (fun x => x.wind_direction) ws hw
  · rw [show (ws.foldl (waStep weights) WAcc.init).precipitation =
        ws.foldl (fun sc p => accOpt (weightOf weights p.1) p.2.precipitation sc) (0, 0) from
      waStep_foldl_precipitation weights ws WAcc.init]
    exact avgOpt_fold_spec weights (fun x => x.precipitation) ws hw
  · rw [show (ws.foldl (waStep weights) WAcc.init).visibility =
        ws.foldl (fun sc p => accOpt (weightOf weights p.1) p.2.visibility sc) (0, 0) from
      waStep_foldl_visibility weights ws WAcc.init]
    exact avgOpt_fold_spec weights (fun x => x.visibility) ws hw
  · rw [show (ws.foldl (waStep weights) WAcc.init).uv_index =
        ws.foldl (fun sc p => accOpt (weightOf weights p.1) p.2.uv_index sc) (0, 0) from
      waStep_foldl_uv_index weights ws WAcc.init]
    exact avgOpt_fold_spec weights (fun x => x.uv_index) ws hw

/-- Witness for C2 at the spec's P4 instance: provider A reports
humidity `some 50` at weight 1, provider B reports no humidity at
weight 1; the combined humidity is `some 50`, not `some 25`. -/
theorem average_weather_optional_fields_witness :
    ([("A", sampleWeather 20 (some 50)), ("B", sampleWeather 22 none)] :
        List (String × Weather)) ≠ [] ∧
    (∀ p ∈ ([("A", sampleWeather 20 (some 50)), ("B", sampleWeather 22 none)] :
        List (String × Weather)), 0 < weightOf [("A", (1 : ℚ)), ("B", 1)] p.1) ∧
    (∃ cw, average_weather [("A", (1 : ℚ)), ("B", 1)] 0
        [("A", sampleWeather 20 (some 50)), ("B", sampleWeather 22 none)] = .ok cw ∧
      cw.feels_like = specOptField [("A", (1 : ℚ)), ("B", 1)] (fun x => x.feels_like)
        [("A", sampleWeather 20 (some 50)), ("B", sampleWeather 22 none)] ∧
      cw.humidity = specOptField [("A", (1 : ℚ)), ("B", 1)] (fun x => x.humidity)
        [("A", sampleWeather 20 (some 50)), ("B", sampleWeather 22 none)] ∧
      cw.pressure = specOptField [("A", (1 : ℚ)), ("B", 1)] (fun x => x.pressure)
        [("A", sampleWeather 20 (some 50)), ("B", sampleWeather 22 none)] ∧
      cw.wind_speed = specOptField [("A", (1 : ℚ)), ("B", 1)] (fun x => x.wind_speed)
        [("A", sampleWeather 20 (some 50)), ("B", sampleWeather 22 none)] ∧
      cw.wind_direction = specOptField [("A", (1 : ℚ)), ("B", 1)] (fun x => x.wind_direction)
        [("A", sampleWeather 20 (some 50)), ("B", sampleWeather 22 none)] ∧
      cw.precipitation = specOptField [("A", (1 : ℚ)), ("B", 1)] (fun x => x.precipitation)
        [("A", sampleWeather 20 (some 50)), ("B", sampleWeather 22 none)] ∧
      cw.visibility = specOptField [("A", (1 : ℚ)), ("B", 1)] (fun x => x.visibility)
        [("A", sampleWeather 20 (some 50)), ("B", sampleWeather 22 none)] ∧
      cw.uv_index = specOptField [("A", (1 : ℚ)), ("B", 1)] (fun x => x.uv_index)
        [("A", sampleWeather 20 (some 50)), ("B", sampleWeather 22 none)]) ∧
    specOptField [("A", (1 : ℚ)), ("B", 1)] (fun x => x.humidity)
      [("A", sampleWeather 20 (some 50)), ("B", sampleWeather 22 none)] = some 50 :=
  ⟨List.cons_ne_nil _ _,
    by
      intro p hp
      simp only [List.mem_cons, List.not_mem_nil, or_false] at hp
      rcases hp with rfl | rfl <;> norm_num [weightOf, lookupAssoc],
    average_weather_optional_fields [("A", (1 : ℚ)), ("B", 1)] 0
      [("A", sampleWeather 20 (some 50)), ("B", sampleWeather 22 none)]
      (List.cons_ne_nil _ _)
      (by
        intro p hp
        simp only [List.mem_cons, List.not_mem_nil, or_false] at hp
        rcases hp with rfl | rfl <;> norm_num [weightOf, lookupAssoc]),
    by norm_num [specOptField, suppliersOf, suppliedSum, suppliedWeight, weightOf,
      lookupAssoc, sampleWeather, (show ("A" : String) ≠ "B" from by decide)]⟩

theorem sevDescBool_trans :
    ∀ a b c : Alert, sevDescBool a b → sevDescBool b c → sevDescBool a c := by
  intro a b c hab hbc
  simp only [sevDescBool, decide_eq_true_eq] at *
  omega

theorem sevDescBool_total : ∀ a b : Alert, sevDescBool a b || sevDescBool b a := by
  intro a b
  simp only [sevDescBool, Bool.or_eq_true, decide_eq_true_eq]
  omega

theorem dedupAlerts_filter (k : String) :
    ∀ (l : List (String × Alert)) (seen : List String),
      (dedupAlerts seen l).filter (fun p => alertKey p.2 = k) =
        if k ∈ seen then [] else (l.find? (fun p => alertKey p.2 = k)).toList := by
  intro l
  induction l with
  | nil =>
    intro seen
    by_cases h : k ∈ seen <;> simp [dedupAlerts, h]
  | cons p rest ih =>
    intro seen
    obtain ⟨prov, a⟩ := p
    by_cases hmem : alertKey a ∈ seen
    · rw [show dedupAlerts seen ((prov, a) :: rest) = dedupAlerts seen rest from by
        simp [dedupAlerts, hmem]]
      rw [ih seen]
      by_cases hk : k ∈ seen
      · simp [hk]
      · have hne : ¬ (alertKey a = k) := fun e => hk (e ▸ hmem)
        rw [if_neg hk, if_neg hk, List.find?_cons_of_neg _ (by simpa using hne)]
    · rw [show dedupAlerts seen ((prov, a) :: rest) =
          (prov, a) :: dedupAlerts (alertKey a :: seen) rest from by
        simp [dedupAlerts, hmem]]
      by_cases hak : alertKey a = k
      · rw [List.filter_cons_of_pos (by simpa using hak), ih (alertKey a :: seen),
          if_pos (by simp [hak]), if_neg (fun h => hmem (hak ▸ h)),
          List.find?_cons_of_pos _ (by simpa using hak)]
        rfl
      · rw [List.filter_cons_of_neg (by simpa using hak), ih (alertKey a :: seen)]
        by_cases hk : k ∈ seen
        · rw [if_pos (by simp [hk]), if_pos hk]
        · rw [if_neg (by
              simp only [List.mem_cons, not_or]
              exact ⟨fun e => hak e.symm, hk⟩), if_neg hk,
            List.find?_cons_of_neg _ (by simpa using hak)]

/-- C6: the merged alert list is a permutation of the de-duplicated,
title-tagged pairs (so it holds, for each distinct de-dup key
`title ++ "-" ++ start` computed from the original title, exactly the
first-encountered alert, tagged `"[" ++ provider ++ "] "` with the
first-encountering provider's name), and it is sorted by severity in
descending rank order (Extreme before Severe before Moderate before
Minor). -/
theorem merge_alerts_spec (l : List (String × List Alert)) (k : String) :
    (merge_alerts l).Perm ((dedupAlerts [] (flattenAlerts l)).map tagAlert) ∧
    (merge_alerts l).Pairwise (fun a b => b.severity.rank ≤ a.severity.rank) ∧
    (dedupAlerts [] (flattenAlerts l)).filter (fun p => alertKey p.2 = k) =
      ((flattenAlerts l).find? (fun p => alertKey p.2 = k)).toList ∧
    ∀ p : String × Alert, (tagAlert p).title = "[" ++ p.1 ++ "] " ++ p.2.title := by
  refine ⟨?_, ?_, ?_, fun p => rfl⟩
  · exact List.mergeSort_perm _ _
  · have hs := List.sorted_mergeSort sevDescBool_trans sevDescBool_total
      ((dedupAlerts [] (flattenAlerts l)).map tagAlert)
    exact hs.imp (fun h => by simpa [sevDescBool] using h)
  · have h := dedupAlerts_filter k (flattenAlerts l) []
    simpa using h

theorem currentFanout_nil_of_fail (fb : Bool) :
    ∀ ps : List Provider, (∀ p ∈ ps, ∀ w, p.currentResult ≠ .ok w) →
      (currentFanout fb ps).1 = [] := by
  intro ps
  induction ps with
  | nil => intro _; rfl
  | cons p t ih =>
    intro h
    cases hc : p.currentResult with
    | ok w => exact absurd hc (h p (List.mem_cons_self p t) w)
    | error e =>
      simp only [currentFanout, hc]
      exact ih (fun q hq w => h q (List.mem_cons_of_mem p hq) w)

theorem forecastFanout_nil_of_fail (fb : Bool) :
    ∀ ps : List Provider, (∀ p ∈ ps, ∀ f, p.forecastResult ≠ .ok f) →
      (forecastFanout fb ps).1 = [] := by
  intro ps
  induction ps with
  | nil => intro _; rfl
  | cons p t ih =>
    intro h
    have hrec := ih (fun q hq f => h q (List.mem_cons_of_mem p hq) f)
    by_cases hs : p.supports .Forecast
    · cases hc : p.forecastResult with
      | ok f => exact absurd hc (h p (List.mem_cons_self p t) f)
      | error e => simp only [forecastFanout, hs, if_true, hc]; exact hrec
    · simp only [forecastFanout, hs, if_false]; exact hrec

theorem alertsFanout_nil_of_fail :
    ∀ ps : List Provider, (∀ p ∈ ps, ∀ a, p.alertsResult ≠ .ok a) →
      (alertsFanout ps).1 = [] := by
  intro ps
  induction ps with
  | nil => intro _; rfl
  | cons p t ih =>
    intro h
    have hrec := ih (fun q hq a => h q (List.mem_cons_of_mem p hq) a)
    by_cases hs : p.supports .Alerts
    · cases hc : p.alertsResult with
      | ok a => exact absurd hc (h p (List.mem_cons_self p t) a)
      | error e => simp only [alertsFanout, hs, if_true, hc]; exact hrec
    · simp only [alertsFanout, hs, if_false]; exact hrec

theorem historicalFanout_nil_of_fail (fb : Bool) :
    ∀ ps : List Provider, (∀ p ∈ ps, ∀ d, p.historicalResult ≠ .ok d) →
      (historicalFanout fb ps).1 = [] := by
  intro ps
  induction ps with
  | nil => intro _; rfl
  | cons p t ih =>
    intro h
    have hrec := ih (fun q hq d => h q (List.mem_cons_of_mem p hq) d)
    by_cases hs : p.supports .HistoricalData
    · cases hc : p.historicalResult with
      | ok d => exact absurd hc (h p (List.mem_cons_self p t) d)
      | error e => simp only [historicalFanout, hs, if_true, hc]; exact hrec
    · simp only [historicalFanout, hs, if_false]; exact hrec

/-- C3: when no provider produces a successful result (in particular with
zero configured providers) and the cache misses, `get_current_weather`,
`get_forecast` and `get_historical` each fail with the `NotFound` error
kind, while `get_alerts` succeeds with the empty sequence. -/
theorem empty_results_behavior (c : ComboProvider) (location : String)
    (days now : Nat)
    (hcur : ∀ p ∈ c.providers, ∀ w, p.currentResult ≠ .ok w)
    (hfor : ∀ p ∈ c.providers, ∀ f, p.forecastResult ≠ .ok f)
    (halr : ∀ p ∈ c.providers, ∀ a, p.alertsResult ≠ .ok a)
    (hhis : ∀ p ∈ c.providers, ∀ d, p.historicalResult ≠ .ok d)
    (hm1 : c.cache.get ("current:" ++ location) c.cache_duration_secs now = none)
    (hm2 : c.cache.get ("forecast:" ++ location ++ ":" ++ toString days)
      c.cache_duration_secs now = none)
    (hm3 : c.cache.get ("alerts:" ++ location) c.cache_duration_secs now = none) :
    (∃ m, (c.get_current_weather location now).1 = .error (.NotFound m)) ∧
    (∃ m, (c.get_forecast location days now).1 = .error (.NotFound m)) ∧
    (∃ m, c.get_historical = .error (.NotFound m)) ∧
    (c.get_alerts location now).1 = .ok [] := by
  refine ⟨?_, ?_, ?_, ?_⟩
  · refine ⟨"No weather data available from any provider", ?_⟩
    simp [ComboProvider.get_current_weather, hm1,
      currentFanout_nil_of_fail c.fallback_enabled c.providers hcur, average_weather]
  · refine ⟨"No forecast data available from any provider", ?_⟩
    simp [ComboProvider.get_forecast, hm2,
      forecastFanout_nil_of_fail c.fallback_enabled c.providers hfor, combine_forecasts]
  · refine ⟨"No historical data available", ?_⟩
    simp [ComboProvider.get_historical,
      historicalFanout_nil_of_fail c.fallback_enabled c.providers hhis]
  · simp [ComboProvider.get_alerts, hm3, alertsFanout_nil_of_fail c.providers halr,
      merge_alerts, dedupAlerts, flattenAlerts]

/-- Witness for C3 with zero configured providers and an empty cache. -/
theorem empty_results_behavior_witness :
    (∀ p ∈ ComboProvider.new.providers, ∀ w, p.currentResult ≠ .ok w) ∧
    (∀ p ∈ ComboProvider.new.providers, ∀ f, p.forecastResult ≠ .ok f) ∧
    (∀ p ∈ ComboProvider.new.providers, ∀ a, p.alertsResult ≠ .ok a) ∧
    (∀ p ∈ ComboProvider.new.providers, ∀ d, p.historicalResult ≠ .ok d) ∧
    ComboProvider.new.cache.get ("current:" ++ "Paris")
      ComboProvider.new.cache_duration_secs 0 = none ∧
    ComboProvider.new.cache.get ("forecast:" ++ "Paris" ++ ":" ++ toString 3)
      ComboProvider.new.cache_duration_secs 0 = none ∧
    ComboProvider.new.cache.get ("alerts:" ++ "Paris")
      ComboProvider.new.cache_duration_secs 0 = none ∧
    ((∃ m, (ComboProvider.new.get_current_weather "Paris" 0).1 = .error (.NotFound m)) ∧
    (∃ m, (ComboProvider.new.get_forecast "Paris" 3 0).1 = .error (.NotFound m)) ∧
    (∃ m, ComboProvider.new.get_historical = .error (.NotFound m)) ∧
    (ComboProvider.new.get_alerts "Paris" 0).1 = .ok []) :=
  ⟨fun p hp => absurd hp (List.not_mem_nil p),
    fun p hp => absurd hp (List.not_mem_nil p),
    fun p hp => absurd hp (List.not_mem_nil p),
    fun p hp => absurd hp (List.not_mem_nil p),
    rfl, rfl, rfl,
    empty_results_behavior ComboProvider.new "Paris" 3 0
      (fun p hp => absurd hp (List.not_mem_nil p))
      (fun p hp => absurd hp (List.not_mem_nil p))
      (fun p hp => absurd hp (List.not_mem_nil p))
      (fun p hp => absurd hp (List.not_mem_nil p))
      rfl rfl rfl⟩

theorem currentFanout_break (p : Provider) (w : Weather)
    (hok : p.currentResult = .ok w) :
    ∀ ps : List Provider, (∀ q ∈ ps, ∀ x, q.currentResult ≠ .ok x) →
      ∀ qs, currentFanout false (ps ++ p :: qs) = ([(p.name, w)], ps.length + 1) := by
  intro ps
  induction ps with
  | nil =>
    intro _ qs
    simp [currentFanout, hok]
  | cons q t ih =>
    intro h qs
    cases hc : q.currentResult with
    | ok x => exact absurd hc (h q (List.mem_cons_self q t) x)
    | error e =>
      simp only [List.cons_append, currentFanout, hc, List.append_eq]
      rw [ih (fun r hr x => h r (List.mem_cons_of_mem q hr) x) qs]
      simp [List.length_cons]

/-- C4: with fallback disabled, the current-weather fan-out stops right
after the first adapter call that succeeds — later adapters are never
invoked (the call count is the failing prefix plus one) — and the
combined result is the weighted average of that single success. -/
theorem fallback_short_circuit (c : ComboProvider) (ps qs : List Provider)
    (p : Provider) (w : Weather) (location : String) (now : Nat)
    (hfb : c.fallback_enabled = false)
    (hprov : c.providers = ps ++ p :: qs)
    (hfail : ∀ q ∈ ps, ∀ x, q.currentResult ≠ .ok x)
    (hok : p.currentResult = .ok w)
    (hmiss : c.cache.get ("current:" ++ location) c.cache_duration_secs now = none) :
    currentFanout false c.providers = ([(p.name, w)], ps.length + 1) ∧
    (c.get_current_weather location now).1 =
      average_weather c.weights (Int.ofNat now) [(p.name, w)] := by
  have hfan := currentFanout_break p w hok ps hfail qs
  constructor
  · rw [hprov]
    exact hfan
  · simp only [ComboProvider.get_current_weather, hmiss, Option.none_bind, hfb, hprov, hfan]
    cases havg : average_weather c.weights (Int.ofNat now) [(p.name, w)] with
    | ok cw => simp [havg]
    | error e => simp [havg]

/-- Witness for C4: two configured adapters, both of which would
succeed; with fallback disabled only the first is invoked (call count 1)
and the result is the average of its single report. -/
theorem fallback_short_circuit_witness :
    (((ComboProvider.new.add_provider (okProvider "A" (sampleWeather 10 none)) 1).add_provider
        (okProvider "B" (sampleWeather 99 none)) 1).set_fallback_enabled
      false).fallback_enabled = false ∧
    (((ComboProvider.new.add_provider (okProvider "A" (sampleWeather 10 none)) 1).add_provider
        (okProvider "B" (sampleWeather 99 none)) 1).set_fallback_enabled
      false).providers =
      [] ++ okProvider "A" (sampleWeather 10 none) :: [okProvider "B" (sampleWeather 99 none)] ∧
    (∀ q ∈ ([] : List Provider), ∀ x, q.currentResult ≠ .ok x) ∧
    (okProvider "A" (sampleWeather 10 none)).currentResult = .ok (sampleWeather 10 none) ∧
    (((ComboProvider.new.add_provider (okProvider "A" (sampleWeather 10 none)) 1).add_provider
        (okProvider "B" (sampleWeather 99 none)) 1).set_fallback_enabled
      false).cache.get ("current:" ++ "Paris")
      (((ComboProvider.new.add_provider (okProvider "A" (sampleWeather 10 none)) 1).add_provider
        (okProvider "B" (sampleWeather 99 none)) 1).set_fallback_enabled
      false).cache_duration_secs 7 = none ∧
    (currentFanout false
        (((ComboProvider.new.add_provider (okProvider "A" (sampleWeather 10 none)) 1).add_provider
          (okProvider "B" (sampleWeather 99 none)) 1).set_fallback_enabled
        false).providers =
      ([((okProvider "A" (sampleWeather 10 none)).name, sampleWeather 10 none)],
        List.length ([] : List Provider) + 1) ∧
    ((((ComboProvider.new.add_provider (okProvider "A" (sampleWeather 10 none)) 1).add_provider
        (okProvider "B" (sampleWeather 99 none)) 1).set_fallback_enabled
      false).get_current_weather "Paris" 7).1 =
      average_weather
        (((ComboProvider.new.add_provider (okProvider "A" (sampleWeather 10 none)) 1).add_provider
          (okProvider "B" (sampleWeather 99 none)) 1).set_fallback_enabled
        false).weights (Int.ofNat 7)
        [((okProvider "A" (sampleWeather 10 none)).name, sampleWeather 10 none)]) :=
  ⟨rfl, rfl, fun q hq => absurd hq (List.not_mem_nil q), rfl, rfl,
    fallback_short_circuit
      (((ComboProvider.new.add_provider (okProvider "A" (sampleWeather 10 none)) 1).add_provider
        (okProvider "B" (sampleWeather 99 none)) 1).set_fallback_enabled false)
      [] [okProvider "B" (sampleWeather 99 none)]
      (okProvider "A" (sampleWeather 10 none)) (sampleWeather 10 none) "Paris" 7
      rfl rfl (fun q hq => absurd hq (List.not_mem_nil q)) rfl rfl⟩

theorem mem_dedupFirst : ∀ (l : List String) (x : String), x ∈ dedupFirst l ↔ x ∈ l := by
  intro l
  induction l with
  | nil => simp [dedupFirst]
  | cons a t ih =>
    intro x
    simp only [dedupFirst, List.mem_cons, List.mem_filter]
    constructor
    · rintro (rfl | ⟨hx, _⟩)
      · exact Or.inl rfl
      · exact Or.inr ((ih x).mp hx)
    · rintro (rfl | hx)
      · exact Or.inl rfl
      · by_cases hxa : x = a
        · exact Or.inl hxa
        · exact Or.inr ⟨(ih x).mpr hx, by simpa using hxa⟩

theorem nodup_dedupFirst : ∀ l : List String, (dedupFirst l).Nodup := by
  intro l
  induction l with
  | nil => simp [dedupFirst]
  | cons a t ih =>
    simp only [dedupFirst, List.nodup_cons]
    constructor
    · intro hmem
      have := (List.mem_filter.mp hmem).2
      simp at this
    · exact ih.filter _

theorem daStep_foldl_sunrise (weights : List (String × ℚ)) :
    ∀ (bucket : List (String × DailyForecast)) (acc : DAcc),
      (bucket.foldl (daStep weights) acc).sunrise =
        acc.sunrise.or (firstSome (bucket.map (fun p => p.2.sunrise))) := by
  intro bucket
  induction bucket with
  | nil =>
    intro acc
    simp [firstSome]
  | cons p t ih =>
    intro acc
    simp only [List.foldl_cons, List.map_cons]
    rw [ih]
    have hstep : (daStep weights acc p).sunrise = acc.sunrise.or p.2.sunrise := by
      cases hs : acc.sunrise <;> simp [daStep, hs, Option.or]
    rw [hstep, Option.or_assoc]
    rfl

theorem daStep_foldl_sunset (weights : List (String × ℚ)) :
    ∀ (bucket : List (String × DailyForecast)) (acc : DAcc),
      (bucket.foldl (daStep weights) acc).sunset =
        acc.sunset.or (firstSome (bucket.map (fun p => p.2.sunset))) := by
  intro bucket
  induction bucket with
  | nil =>
    intro acc
    simp [firstSome]
  | cons p t ih =>
    intro acc
    simp only [List.foldl_cons, List.map_cons]
    rw [ih]
    have hstep : (daStep weights acc p).sunset = acc.sunset.or p.2.sunset := by
      cases hs : acc.sunset <;> simp [daStep, hs, Option.or]
    rw [hstep, Option.or_assoc]
    rfl

theorem combineDailyBucket_sunrise (weights : List (String × ℚ)) (d : String)
    (bucket : List (String × DailyForecast)) :
    (combineDailyBucket weights d bucket).sunrise =
      firstSome (bucket.map (fun p => p.2.sunrise)) := by
  show (bucket.foldl (daStep weights) DAcc.init).sunrise = _
  rw [daStep_foldl_sunrise]
  rfl

theorem combineDailyBucket_sunset (weights : List (String × ℚ)) (d : String)
    (bucket : List (String × DailyForecast)) :
    (combineDailyBucket weights d bucket).sunset =
      firstSome (bucket.map (fun p => p.2.sunset)) := by
  show (bucket.foldl (daStep weights) DAcc.init).sunset = _
  rw [daStep_foldl_sunset]
  rfl

/-- C7: the combined daily forecast has exactly one entry per distinct
date string of the contributing providers' entries (same-date entries are
merged, disjoint dates stay separate), the list is sorted ascending by
date string with no duplicate dates, each entry is the combination of its
date's bucket in fan-out order, and its sunrise/sunset are the first
non-null values seen for that date across providers in fan-out order. -/
theorem combine_forecasts_dates (weights : List (String × ℚ))
    (fs : List (String × Forecast)) (hne : fs ≠ []) :
    ∃ fc, combine_forecasts weights fs = .ok fc ∧
      (fc.daily.map (fun e => e.date)).Perm
        (dedupFirst ((flattenDaily fs).map (fun p => p.2.date))) ∧
      fc.daily.Pairwise (fun a b => a.date ≤ b.date) ∧
      (fc.daily.map (fun e => e.date)).Nodup ∧
      (∀ d, d ∈ fc.daily.map (fun e => e.date) ↔
        d ∈ (flattenDaily fs).map (fun p => p.2.date)) ∧
      (∀ e ∈ fc.daily, e = combineDailyBucket weights e.date (dailyBucket fs e.date)) ∧
      (∀ e ∈ fc.daily,
        e.sunrise = firstSome ((dailyBucket fs e.date).map (fun p => p.2.sunrise)) ∧
        e.sunset = firstSome ((dailyBucket fs e.date).map (fun p => p.2.sunset))) := by
  have hne' : fs.isEmpty = false := by
    cases fs with
    | nil => exact absurd rfl hne
    | cons a t => rfl
  have hmap :
      ((dedupFirst ((flattenDaily fs).map (fun p => p.2.date))).map
        (fun d => combineDailyBucket weights d (dailyBucket fs d))).map
          (fun e => e.date) =
        dedupFirst ((flattenDaily fs).map (fun p => p.2.date)) := by
    rw [List.map_map]
    have hcomp : ((fun e : DailyForecast => e.date) ∘
        fun d => combineDailyBucket weights d (dailyBucket fs d)) = id := by
      funext d
      rfl
    rw [hcomp, List.map_id]
  have hperm := (List.mergeSort_perm
      ((dedupFirst ((flattenDaily fs).map (fun p => p.2.date))).map
        (fun d => combineDailyBucket weights d (dailyBucket fs d)))
      (fun a b => decide (a.date ≤ b.date))).map (fun e => e.date)
  rw [hmap] at hperm
  have htrans : ∀ a b c : DailyForecast, (decide (a.date ≤ b.date) = true) →
      (decide (b.date ≤ c.date) = true) → (decide (a.date ≤ c.date) = true) := by
    intro a b c hab hbc
    simp only [decide_eq_true_eq] at *
    exact le_trans hab hbc
  have htotal : ∀ a b : DailyForecast,
      (decide (a.date ≤ b.date) || decide (b.date ≤ a.date)) = true := by
    intro a b
    simp only [Bool.or_eq_true, decide_eq_true_eq]
    exact le_total a.date b.date
  have hsorted := List.sorted_mergeSort htrans htotal
    ((dedupFirst ((flattenDaily fs).map (fun p => p.2.date))).map
      (fun d => combineDailyBucket weights d (dailyBucket fs d)))
  simp only [combine_forecasts, hne', Bool.false_eq_true, if_false]
  refine ⟨_, rfl, hperm, hsorted.imp (fun h => by simpa using h),
    hperm.nodup_iff.mpr (nodup_dedupFirst _), ?_, ?_, ?_⟩
  · intro d
    rw [hperm.mem_iff, mem_dedupFirst]
  · intro e he
    obtain ⟨d, _, rfl⟩ := List.mem_map.mp ((List.mem_mergeSort).mp he)
    rfl
  · intro e he
    obtain ⟨d, _, rfl⟩ := List.mem_map.mp ((List.mem_mergeSort).mp he)
    constructor
    · rw [combineDailyBucket_sunrise]
      rfl
    · rw [combineDailyBucket_sunset]
      rfl

/-- Witness for C7 at `sampleFs`: dates 2024-01-01 and 2024-01-02, the
shared date merged into one entry, output sorted by date. -/
theorem combine_forecasts_dates_witness :
    sampleFs ≠ [] ∧
    (∃ fc, combine_forecasts [("A", (1 : ℚ)), ("B", 1)] sampleFs = .ok fc ∧
      (fc.daily.map (fun e => e.date)).Perm
        (dedupFirst ((flattenDaily sampleFs).map (fun p => p.2.date))) ∧
      fc.daily.Pairwise (fun a b => a.date ≤ b.date) ∧
      (fc.daily.map (fun e => e.date)).Nodup ∧
      (∀ d, d ∈ fc.daily.map (fun e => e.date) ↔
        d ∈ (flattenDaily sampleFs).map (fun p => p.2.date)) ∧
      (∀ e ∈ fc.daily,
        e = combineDailyBucket [("A", (1 : ℚ)), ("B", 1)] e.date
          (dailyBucket sampleFs e.date)) ∧
      (∀ e ∈ fc.daily,
        e.sunrise =
          firstSome ((dailyBucket sampleFs e.date).map (fun p => p.2.sunrise)) ∧
        e.sunset =
          firstSome ((dailyBucket sampleFs e.date).map (fun p => p.2.sunset)))) ∧
    dedupFirst ((flattenDaily sampleFs).map (fun p => p.2.date)) =
      ["2024-01-02", "2024-01-01"] ∧
    firstSome ((dailyBucket sampleFs "2024-01-02").map (fun p => p.2.sunrise)) =
      some "srA" :=
  ⟨List.cons_ne_nil _ _,
    combine_forecasts_dates [("A", (1 : ℚ)), ("B", 1)] sampleFs (List.cons_ne_nil _ _),
    by decide, by decide⟩

end Jupiter
